import Mathlib

/-!
Shallow embedding of the "auto open changed files" editor extension.

The repository contains two variants of the extension:
* `src/extension.js` — the JavaScript variant, with a debounce cache
  (`recentChecks`), a batch-operation detector (`recentFileChanges`,
  `isLikelyBatchOperation`) and a visibility check (`isFileOpenByUser`);
* `src/src/extension.ts` — the TypeScript variant, with a package-manager
  suppression flag (`isPackageManagerRunning`), Laravel storage filters,
  a debounce map (`lastCheckedFiles`), and the `openFile` action that
  tracks `openedFiles` / `autoOpenedFiles`.

Times are modelled as `Nat` milliseconds (the code uses `Date.now()`).
JavaScript `Map`s are modelled as association lists with unique keys in
insertion order (`setA` replaces in place or appends, like `Map.set`);
`Set`s are lists without duplicates (`insertS`).  File-system state and
editor visibility are explicit inputs.  Host calls (`showTextDocument`,
`vscode.open`) are modelled as emitted actions that succeed; the retry
ladder of `openFile` collapses to the first attempted action, which is
sound for the claims below (they are about whether an open is attempted
at all and about the guard logic before it).
-/

/-- JavaScript-string helper: is `pre` a prefix of `l`? -/
def isPrefixL : List Char → List Char → Bool
  | [], _ => true
  | _ :: _, [] => false
  | a :: as, b :: bs => if a = b then isPrefixL as bs else false

/-- JavaScript `String.prototype.includes`: does `l` contain `pat` as a contiguous substring? -/
def containsL (pat : List Char) : List Char → Bool
  | [] => isPrefixL pat []
  | c :: cs => if isPrefixL pat (c :: cs) then true else containsL pat cs

/-- `s.includes(pat)` on strings. -/
def containsSub (s pat : String) : Bool := containsL pat.data s.data

/-- `s.startsWith(pat)` on strings. -/
def startsWithS (s pat : String) : Bool := isPrefixL pat.data s.data

/-- `s.endsWith(pat)` on strings (used to embed the anchored regexes). -/
def endsWithS (s pat : String) : Bool := isPrefixL pat.data.reverse s.data.reverse

/-- `String.prototype.toLowerCase` (ASCII, as used on the path segments). -/
def lowerStr (s : String) : String := String.mk (s.data.map Char.toLower)

/-- `path.split('/')` — JavaScript `String.prototype.split` on the path separator. -/
def splitSlash : List Char → List (List Char)
  | [] => [[]]
  | c :: cs =>
    let r := splitSlash cs
    if c = '/' then [] :: r
    else
      match r with
      | h :: t => (c :: h) :: t
      | [] => [[c]]

/-- Path segments of a string path (`fsPath.split(path.sep)`, `path.sep = '/'`). -/
def pathSegments (p : String) : List String := (splitSlash p.data).map String.mk

/-- Characters of the last path component, ignoring trailing slashes
(the scan used by Node `path.basename` / `path.extname`). -/
def lastComp (cs : List Char) : List Char :=
  ((cs.reverse.dropWhile (fun c => c = '/')).takeWhile (fun c => !(c = '/'))).reverse

/-- Node `path.basename` (POSIX). -/
def basename (p : String) : String :=
  let stripped := (p.data.reverse.dropWhile (fun c => c = '/')).reverse
  if stripped.isEmpty then (if p.data.isEmpty then "" else "/")
  else String.mk ((stripped.reverse.takeWhile (fun c => !(c = '/'))).reverse)

/-- Node `path.extname` (POSIX): the extension from the last dot of the last
component; empty when the component has no dot, starts with its only dot,
or is `..`. -/
def extname (p : String) : String :=
  let comp := lastComp p.data
  if comp = ['.', '.'] then ""
  else
    let rsuf := comp.reverse.takeWhile (fun c => !(c = '.'))
    if rsuf.length = comp.length then ""
    else if rsuf.length + 1 = comp.length then ""
    else String.mk ('.' :: rsuf.reverse)

/-- Membership test on a list of strings (`Set.has` / `Array.includes`). -/
def memB (l : List String) (x : String) : Bool :=
  match l with
  | [] => false
  | y :: t => if y = x then true else memB t x

/-- `Map.get` on an association list (JavaScript `Map` in insertion order). -/
def lookupA (m : List (String × Nat)) (k : String) : Option Nat :=
  match m with
  | [] => none
  | e :: rest => if e.1 = k then some e.2 else lookupA rest k

/-- `Map.set` on an association list: replace the value in place if the key
is present, otherwise append the new entry (JavaScript `Map.set`). -/
def setA (m : List (String × Nat)) (k : String) (v : Nat) : List (String × Nat) :=
  match m with
  | [] => [(k, v)]
  | e :: rest => if e.1 = k then (k, v) :: rest else e :: setA rest k v

/-- `Set.add` on a list without duplicates (keeps insertion order). -/
def insertS (l : List String) (p : String) : List String :=
  if memB l p then l else l ++ [p]

/-- `Set.delete` on a list. -/
def removeS (l : List String) (p : String) : List String :=
  l.filter (fun q => !(q = p))

/-! ## Path classifier of the JavaScript variant (`src/extension.js`) -/

/-- `IGNORED_DIRS` of `src/extension.js` (lines 14-18). -/
def IGNORED_DIRS : List String :=
  ["node_modules", "vendor", ".git", ".svn", ".hg",
   ".cursor", ".vscode", "build", "dist", "out",
   ".next", ".nuxt", ".cache", "coverage", ".nyc_output"]

/-- `ALLOWED_EXTS` of `src/extension.js` (lines 20-28). -/
def ALLOWED_EXTS : List String :=
  [".js", ".jsx", ".ts", ".tsx",
   ".mjs", ".cjs", ".cts", ".mts",
   ".php", ".phtml", ".py", ".rb", ".go", ".java", ".cs", ".kt", ".kts", ".rs",
   ".cpp", ".cxx", ".cc", ".c", ".h", ".hpp", ".hh",
   ".vue", ".svelte", ".astro", ".mdx",
   ".html", ".htm", ".css", ".scss", ".sass", ".less",
   ".json", ".yml", ".yaml", ".xml", ".md", ".sql", ".sh", ".ps1", ".bat"]

/-- `shouldIgnorePath` of `src/extension.js` (lines 38-46): some path segment,
lower-cased, is an ignored directory name. -/
def shouldIgnorePath (fsPath : String) : Bool :=
  (pathSegments fsPath).any (fun segment => memB IGNORED_DIRS (lowerStr segment))

/-- `shouldOpenFile` of `src/extension.js` (lines 48-61). -/
def shouldOpenFile (fsPath : String) : Bool :=
  if shouldIgnorePath fsPath then false
  else if memB ALLOWED_EXTS (lowerStr (extname fsPath)) then true
  else false

/-! ## Path classifier of the TypeScript variant (`src/src/extension.ts`) -/

/-- `ALLOWED_EXTENSIONS` of `src/src/extension.ts` (lines 10-15). -/
def ALLOWED_EXTENSIONS : List String :=
  [".php", ".ts", ".js", ".jsx", ".tsx", ".vue",
   ".py", ".rb", ".go", ".cs", ".rs", ".c", ".cpp",
   ".css", ".json",
   ".md", ".mdx", ".mdc"]

/-- `EXCLUDED_DIRS` of `src/src/extension.ts` (lines 31-41). -/
def EXCLUDED_DIRS : List String :=
  ["vendor", "node_modules", ".git", "build", "dist", "cache", ".cache",
   "storage", "bootstrap"]

/-- `DISALLOWED_PATTERNS` of `src/src/extension.ts` (lines 20-28), applied to
the base name: the two anchored lock-file regexes are name equality, the
suffix regexes are `endsWith`. -/
def disallowedPatternHit (fileName : String) : Bool :=
  if fileName = "yarn.lock" then true
  else if fileName = "package-lock.json" then true
  else if endsWithS fileName ".env" then true
  else if endsWithS fileName ".lock" then true
  else if endsWithS fileName ".log" then true
  else if endsWithS fileName ".sql" then true
  else if endsWithS fileName ".txt" then true
  else false

/-- `shouldAutoOpen` of `src/src/extension.ts` (lines 326-374).  The argument
is the workspace-relative path (`vscode.workspace.asRelativePath` is modelled
as the identity; `path.basename` / `path.extname` agree on the absolute and
the relative path since they only look at the last component). -/
def shouldAutoOpen (relativePath : String) : Bool :=
  if containsSub relativePath "storage/framework/views" then false
  else if containsSub relativePath "storage\\framework\\views" then false
  else if startsWithS relativePath "storage/" then false
  else if startsWithS relativePath "storage\\" then false
  else if (pathSegments relativePath).any (fun part => memB EXCLUDED_DIRS (lowerStr part)) then false
  else if disallowedPatternHit (basename relativePath) then false
  else if !(memB ALLOWED_EXTENSIONS (lowerStr (extname relativePath))) then false
  else if basename relativePath = "yarn.lock" then false
  else if basename relativePath = "package-lock.json" then false
  else true

/-! ## Debounce ledgers -/

/-- `CHECK_CACHE_TTL` of `src/extension.js` (line 32). -/
def CHECK_CACHE_TTL : Nat := 1000

/-- `BATCH_DETECTION_WINDOW` of `src/extension.js` (line 36). -/
def BATCH_DETECTION_WINDOW : Nat := 500

/-- JavaScript truthiness of `recentChecks.get(path)`: `undefined` and `0`
are falsy, any other number is truthy. -/
def jsTruthy : Option Nat → Bool
  | none => false
  | some v => !(v = 0)

/-- Debounce of the TypeScript variant, `fileWatcher.onDidChange`
(`src/src/extension.ts` lines 211-222): a missing entry reads as `0`
(`lastCheckedFiles.get(filePath) || 0`); on rejection the map is not
updated, on acceptance `lastCheckedFiles.set(filePath, now)` runs. -/
def tsDebounceCheck (m : List (String × Nat)) (p : String) (now : Nat) :
    Bool × List (String × Nat) :=
  let lastChecked := (lookupA m p).getD 0
  if now - lastChecked < 2000 then (false, m)
  else (true, setA m p now)

/-! ## Batch/noise detector of the JavaScript variant -/

/-- `isLikelyBatchOperation` of `src/extension.js` (lines 81-88): at least 3
entries of `recentFileChanges` have a timestamp within the last
`BATCH_DETECTION_WINDOW` milliseconds. -/
def isLikelyBatchOperation (recentFileChanges : List (String × Nat)) (now : Nat) : Bool :=
  decide (3 ≤ ((recentFileChanges.map Prod.snd).filter
    (fun timestamp => decide (now - timestamp < BATCH_DETECTION_WINDOW))).length)

/-! ## JavaScript decision pipeline (`handleFileChange`, lines 93-178)

`handleFileChange` suspends for `BATCH_DETECTION_WINDOW` ms in the middle
(line 140).  It is embedded as two functions: `jsPreWait` covers everything
before the `await` (classifier, debounce, recording, purging, visibility),
`jsPostWait` covers the batch verdict and the open attempt after waking up.
-/

/-- Mutable state of the JavaScript variant. -/
structure JSState where
  autoOpen : Bool
  recentChecks : List (String × Nat)
  recentFileChanges : List (String × Nat)
  visibleFiles : List String
  deriving DecidableEq

/-- Outcome of the part of `handleFileChange` before the batch-window wait. -/
inductive JSPre
  | skipCriteria
  | debounced
  | skipUserOpen
  | proceedToWait
  deriving DecidableEq

/-- Lines 95-137 of `src/extension.js`: the enable/classifier check, the
debounce cache, recording into `recentFileChanges`, the two size-triggered
purges, and the user-visibility check, in source order. -/
def jsPreWait (st : JSState) (p : String) (now : Nat) : JSPre × JSState :=
  if !(st.autoOpen && shouldOpenFile p) then (.skipCriteria, st)
  else
    let lastCheck := lookupA st.recentChecks p
    if jsTruthy lastCheck && decide (now - lastCheck.getD 0 < CHECK_CACHE_TTL) then
      (.debounced, st)
    else
      let rc := setA st.recentChecks p now
      let rfc := setA st.recentFileChanges p now
      let rc2 := if 100 < rc.length then
          rc.filter (fun e => !(decide (e.2 < now - CHECK_CACHE_TTL * 10)))
        else rc
      let rfc2 := if 50 < rfc.length then
          rfc.filter (fun e => !(decide (e.2 < now - BATCH_DETECTION_WINDOW * 2)))
        else rfc
      let st' := { st with recentChecks := rc2, recentFileChanges := rfc2 }
      if memB st'.visibleFiles p then (.skipUserOpen, st') else (.proceedToWait, st')

/-- File-system snapshot: which paths exist on disk and which exceed the
50 MB editor limit. -/
structure FSState where
  files : List String
  oversize : List String
  deriving DecidableEq

/-- Outcome of the part of `handleFileChange` after the wait (lines 142-177):
batch verdict first, then `statSync` (ENOENT caught), the size check, and
the open. -/
inductive JSPost
  | batchSkip
  | missing
  | tooLarge
  | opened
  deriving DecidableEq

/-- Lines 142-167 of `src/extension.js`, evaluated at wake-up time `now`
against the state recorded at that moment. -/
def jsPostWait (st : JSState) (fs : FSState) (p : String) (now : Nat) : JSPost :=
  if isLikelyBatchOperation st.recentFileChanges now then .batchSkip
  else if !(memB fs.files p) then .missing
  else if memB fs.oversize p then .tooLarge
  else .opened

/-! ## Package/build activity monitor (`src/src/extension.ts` lines 53-136) -/

/-- Suppression state: the running flag, `activityStartTime`, and the firing
time of the pending `setTimeout` cooldown (`none` when no timer is pending). -/
structure PMState where
  isPackageManagerRunning : Bool
  activityStartTime : Nat
  timerExpiry : Option Nat
  deriving DecidableEq

/-- `handlePackageManagerActivity` (`src/src/extension.ts` lines 113-136):
sets the flag, keeps `activityStartTime` if already running, cancels any
pending cooldown (`clearTimeout`) and schedules a fresh 30-second one. -/
def handlePackageManagerActivity (s : PMState) (now : Nat) : PMState :=
  { isPackageManagerRunning := true
    activityStartTime := if s.isPackageManagerRunning then s.activityStartTime else now
    timerExpiry := some (now + 30000) }

/-- Events of the monitor: an early-indicator watcher callback at time `t`,
or the cooldown timer firing at time `t`. -/
inductive PMEvent
  | activity (t : Nat)
  | fire (t : Nat)
  deriving DecidableEq

/-- One step of the monitor.  A `fire` only takes effect when it is the
currently pending timer (an earlier timer was cancelled by `clearTimeout`
inside `handlePackageManagerActivity`, so it never fires). -/
def pmStep (s : PMState) : PMEvent → PMState
  | .activity t => handlePackageManagerActivity s t
  | .fire t =>
    if s.timerExpiry = some t then
      { s with isPackageManagerRunning := false, timerExpiry := none }
    else s

/-! ## Editor model for the TypeScript variant -/

/-- Mutable state of the TypeScript variant plus the host-owned visibility
and in-memory document sets that the handlers query.  `pmRunning` is the
module-level `isPackageManagerRunning` flag. -/
structure EditorState where
  pmRunning : Bool
  visibleFiles : List String
  inMemoryDocs : List String
  openedFiles : List String
  autoOpenedFiles : List String
  lastCheckedFiles : List (String × Nat)
  documentModificationTimes : List (String × Nat)
  deriving DecidableEq

/-- A host call attempted by `openFile` (the first attempt of each branch;
host calls are modelled as succeeding). -/
inductive HostAct
  | showTextDocument (p : String)
  | executeOpenCommand (p : String)
  deriving DecidableEq

/-- `openedFiles.add(filePath); autoOpenedFiles.add(filePath)` as performed
in every branch of `openFile` that reaches a document. -/
def addOpened (s : EditorState) (p : String) : EditorState :=
  { s with openedFiles := insertS s.openedFiles p
           autoOpenedFiles := insertS s.autoOpenedFiles p }

/-- `openFile` of `src/src/extension.ts` (lines 376-516): existence check,
size check, then the scan of `workspace.textDocuments`; a document that is
in memory and visible is left alone (but recorded in both sets), one in
memory but not visible is shown, and a document not in memory is opened via
the `vscode.open` command.  Returns the attempted host actions and the new
state. -/
def openFile (p : String) (s : EditorState) (fs : FSState) :
    List HostAct × EditorState :=
  if !(memB fs.files p) then ([], s)
  else if memB fs.oversize p then ([], s)
  else if memB s.inMemoryDocs p then
    if memB s.visibleFiles p then ([], addOpened s p)
    else ([HostAct.showTextDocument p], addOpened s p)
  else ([HostAct.executeOpenCommand p], addOpened s p)

/-- The verdicts of the `fileWatcher.onDidChange` handler of the TypeScript
variant, in the order its guards appear (each corresponds to a distinct log
line of the source). -/
inductive TSDecision
  | suppressed
  | storageSkipped
  | criteriaSkipped
  | debounced
  | proceedOpen
  deriving DecidableEq

/-- Guard sequence of `fileWatcher.onDidChange` (`src/src/extension.ts`
lines 195-230): package-manager flag, storage-directory substring check,
`shouldAutoOpen`, debounce; when all pass the handler records the time and
proceeds (after a 200 ms settle delay) to `openFile`. -/
def tsChangeDecision (pm : Bool) (lastChecked : List (String × Nat))
    (p : String) (now : Nat) : TSDecision :=
  if pm then .suppressed
  else if containsSub p "storage/" || containsSub p "storage\\" then .storageSkipped
  else if shouldAutoOpen p then
    if now - (lookupA lastChecked p).getD 0 < 2000 then .debounced else .proceedOpen
  else .criteriaSkipped

/-- Events delivered by the host to the TypeScript variant: the four
file/document handlers (for `file`-scheme documents), the tab-tracking
callbacks, a package-manager flag change, and a host-side update of the
visible/in-memory document sets. -/
inductive Ev
  | fsCreate (p : String)
  | fsChange (p : String) (t : Nat)
  | docChange (p : String) (t : Nat)
  | docSave (p : String) (t : Nat)
  | activeEditor (p : String)
  | docClose (p : String)
  | pmSet (b : Bool)
  | hostSync (vis docs : List String)
  deriving DecidableEq

/-- The path an event is about, when it is one of the four file handlers. -/
def evPath : Ev → Option String
  | .fsCreate p => some p
  | .fsChange p _ => some p
  | .docChange p _ => some p
  | .docSave p _ => some p
  | _ => none

/-- One host callback of the TypeScript variant (`src/src/extension.ts`):
* `fsCreate` — `fileWatcher.onDidCreate` (lines 176-190);
* `fsChange` — `fileWatcher.onDidChange` (lines 195-230);
* `docChange` — `onDidChangeTextDocument` (lines 251-275);
* `docSave` — `onDidSaveTextDocument` (lines 280-304);
* `activeEditor` / `docClose` — the tab tracking (lines 309-318);
* `pmSet` / `hostSync` — the suppression flag and host state, set externally.
Returns the attempted host actions and the new state. -/
def stepTS (fs : FSState) (s : EditorState) : Ev → List HostAct × EditorState
  | .fsCreate p =>
    if s.pmRunning then ([], s)
    else if shouldAutoOpen p then openFile p s fs
    else ([], s)
  | .fsChange p now =>
    match tsChangeDecision s.pmRunning s.lastCheckedFiles p now with
    | .proceedOpen =>
      openFile p { s with lastCheckedFiles := setA s.lastCheckedFiles p now } fs
    | _ => ([], s)
  | .docChange p now =>
    if s.pmRunning then ([], s)
    else if shouldAutoOpen p then
      if memB s.visibleFiles p = false ∧ memB s.autoOpenedFiles p = false then
        openFile p
          { s with documentModificationTimes := setA s.documentModificationTimes p now } fs
      else ([], s)
    else ([], s)
  | .docSave p now =>
    if s.pmRunning then ([], s)
    else if shouldAutoOpen p then
      let s1 := { s with documentModificationTimes := setA s.documentModificationTimes p now }
      if memB s1.visibleFiles p = false ∧ memB s1.autoOpenedFiles p = false then openFile p s1 fs
      else ([], s1)
    else ([], s)
  | .activeEditor p => ([], { s with openedFiles := insertS s.openedFiles p })
  | .docClose p => ([], { s with openedFiles := removeS s.openedFiles p })
  | .pmSet b => ([], { s with pmRunning := b })
  | .hostSync vis docs => ([], { s with visibleFiles := vis, inMemoryDocs := docs })

/-- Run a sequence of host callbacks. -/
def runTS (fs : FSState) (s : EditorState) : List Ev → EditorState
  | [] => s
  | e :: es => runTS fs (stepTS fs s e).2 es

/-- `deactivate` of `src/src/extension.ts` (lines 518-527): dispose the
watcher and clear both tracking sets. -/
def deactivateTS (s : EditorState) : EditorState :=
  { s with openedFiles := [], autoOpenedFiles := [] }

/-! ## Spec-side definitions (for refinement comparisons)

These two definitions follow the words of the specification (respectively of
the amended claim), to be compared with the definitions above that were
translated from the source. -/

/-- Modelled from the spec (claim C5 wording): the Path Classifier denies iff
some path segment case-insensitively equals a configured ignored-directory
name, or the base name matches a disallowed-name pattern, or the extension
is not in the allow-list; it allows otherwise. -/
def claimClassifierC5 (p : String) : Bool :=
  !((pathSegments p).any (fun part => memB EXCLUDED_DIRS (lowerStr part)) ||
    disallowedPatternHit (basename p) ||
    !(memB ALLOWED_EXTENSIONS (lowerStr (extname p))))

/-- Modelled from the amended claim C2: the ordered guard list of the
TypeScript change handler — suppression, storage-directory check, Path
Classifier, Debounce Ledger — each paired with its verdict. -/
def checkChainTS (pm : Bool) (m : List (String × Nat)) (p : String) (now : Nat) :
    List (Bool × TSDecision) :=
  [(pm, .suppressed),
   (containsSub p "storage/" || containsSub p "storage\\", .storageSkipped),
   (!shouldAutoOpen p, .criteriaSkipped),
   (decide (now - (lookupA m p).getD 0 < 2000), .debounced)]

/-- The verdict of the first guard that rejects; `proceedOpen` when all pass. -/
def firstHit : List (Bool × TSDecision) → TSDecision
  | [] => .proceedOpen
  | (b, d) :: rest => if b then d else firstHit rest

/-! ## Helper lemmas -/

theorem lookupA_setA_self (m : List (String × Nat)) (k : String) (v : Nat) :
    lookupA (setA m k v) k = some v := by
  induction m with
  | nil => simp [setA, lookupA]
  | cons e rest ih =>
    by_cases h : e.1 = k
    · simp [setA, lookupA, h]
    · simp [setA, lookupA, h, ih]

theorem setA_length_of_isSome (m : List (String × Nat)) (k : String) (v : Nat)
    (h : (lookupA m k).isSome = true) : (setA m k v).length = m.length := by
  induction m with
  | nil => simp [lookupA] at h
  | cons e rest ih =>
    by_cases he : e.1 = k
    · simp [setA, he]
    · simp only [lookupA, if_neg he] at h
      simp [setA, he, ih h]

theorem foldl_setA_length (ts : List Nat) :
    ∀ (m : List (String × Nat)) (k : String), (lookupA m k).isSome = true →
      (ts.foldl (fun acc t => setA acc k t) m).length = m.length := by
  induction ts with
  | nil => intro m k _; rfl
  | cons t rest ih =>
    intro m k h
    have h1 : (lookupA (setA m k t) k).isSome = true := by
      rw [lookupA_setA_self]; rfl
    simp only [List.foldl_cons]
    rw [ih (setA m k t) k h1, setA_length_of_isSome m k t h]

theorem memB_append_left (l l2 : List String) (x : String) (h : memB l x = true) :
    memB (l ++ l2) x = true := by
  induction l with
  | nil => simp [memB] at h
  | cons y t ih =>
    by_cases hy : y = x
    · simp [memB, hy]
    · simp only [memB, if_neg hy] at h
      simp [memB, hy, ih h]

theorem memB_append_self (l : List String) (q : String) :
    memB (l ++ [q]) q = true := by
  induction l with
  | nil => simp [memB]
  | cons y t ih =>
    by_cases hy : y = q
    · simp [memB, hy]
    · simp [memB, hy, ih]

theorem memB_insertS_self (l : List String) (q : String) :
    memB (insertS l q) q = true := by
  unfold insertS
  by_cases h : memB l q
  · simp [h]
  · simp [h, memB_append_self]

theorem memB_insertS_mono (l : List String) (q x : String) (h : memB l x = true) :
    memB (insertS l q) x = true := by
  unfold insertS
  by_cases hq : memB l q
  · simp [hq, h]
  · simp [hq, memB_append_left _ _ _ h]

theorem openFile_actions_of_visible (p : String) (s : EditorState) (fs : FSState)
    (hvis : memB s.visibleFiles p = true) (hmem : memB s.inMemoryDocs p = true) :
    (openFile p s fs).1 = [] := by
  unfold openFile
  split_ifs <;> simp_all

theorem openFile_autoOpened_mono (p x : String) (s : EditorState) (fs : FSState)
    (h : memB s.autoOpenedFiles x = true) :
    memB (openFile p s fs).2.autoOpenedFiles x = true := by
  unfold openFile addOpened
  split_ifs <;> first
    | exact h
    | exact memB_insertS_mono _ _ _ h

theorem stepTS_autoOpened_mono (fs : FSState) (s : EditorState) (ev : Ev) (x : String)
    (h : memB s.autoOpenedFiles x = true) :
    memB (stepTS fs s ev).2.autoOpenedFiles x = true := by
  cases ev with
  | fsCreate p =>
    simp only [stepTS]
    split_ifs <;> first
      | exact h
      | exact openFile_autoOpened_mono _ _ _ _ h
  | fsChange p now =>
    simp only [stepTS]
    cases hd : tsChangeDecision s.pmRunning s.lastCheckedFiles p now <;>
      simp only [hd] <;> first
      | exact h
      | exact openFile_autoOpened_mono _ _ _ _ h
  | docChange p now =>
    simp only [stepTS]
    split_ifs <;> first
      | exact h
      | exact openFile_autoOpened_mono _ _ _ _ h
  | docSave p now =>
    simp only [stepTS]
    split_ifs <;> first
      | exact h
      | exact openFile_autoOpened_mono _ _ _ _ h
  | activeEditor p => exact h
  | docClose p => exact h
  | pmSet b => exact h
  | hostSync vis docs => exact h

theorem runTS_autoOpened_mono (fs : FSState) (evs : List Ev) :
    ∀ (s : EditorState) (x : String), memB s.autoOpenedFiles x = true →
      memB (runTS fs s evs).autoOpenedFiles x = true := by
  induction evs with
  | nil => intro s x h; exact h
  | cons e rest ih =>
    intro s x h
    exact ih _ x (stepTS_autoOpened_mono fs s e x h)

/-! ## Claim C1 -/

/-- Initial state for the three-event burst scenario: extension enabled,
empty caches, nothing visible. -/
def c1state0 : JSState :=
  { autoOpen := true, recentChecks := [], recentFileChanges := [], visibleFiles := [] }

/-- The three changed files exist on disk and are under the size limit. -/
def c1fs : FSState := { files := ["a.js", "b.js", "c.js"], oversize := [] }

/-- State after the pre-wait phase of the event for `a.js` at t = 0 ms. -/
def c1s1 : JSState := (jsPreWait c1state0 "a.js" 0).2

/-- State after the pre-wait phase of the event for `b.js` at t = 100 ms. -/
def c1s2 : JSState := (jsPreWait c1s1 "b.js" 100).2

/-- State after the pre-wait phase of the event for `c.js` at t = 200 ms. -/
def c1s3 : JSState := (jsPreWait c1s2 "c.js" 200).2

/-- C1: evaluation of `handleFileChange` on a cohort of 3 change events for
distinct allow-listed paths recorded at t = 0, 100, 200 ms — inside one
500 ms batch-detection window.  All three events pass the pre-wait checks
and are recorded; yet at every wake-up time `tᵢ + 500` the filter
`now - timestamp < BATCH_DETECTION_WINDOW` excludes the entry recorded at
`tᵢ` itself (it is exactly 500 ms old), so the post-wait batch check counts
only 2, 1 and 0 entries respectively, returns `false` for every member of
the cohort, and all three files are opened.  This contradicts the claim
(and the stated intent of the source comments and README) that every
member of such a cohort is classified as a batch operation and none is
opened. -/
theorem C1_burst_cohort_all_opened :
    (jsPreWait c1state0 "a.js" 0).1 = JSPre.proceedToWait ∧
    (jsPreWait c1s1 "b.js" 100).1 = JSPre.proceedToWait ∧
    (jsPreWait c1s2 "c.js" 200).1 = JSPre.proceedToWait ∧
    c1s3.recentFileChanges = [("a.js", 0), ("b.js", 100), ("c.js", 200)] ∧
    isLikelyBatchOperation c1s3.recentFileChanges (0 + BATCH_DETECTION_WINDOW) = false ∧
    isLikelyBatchOperation c1s3.recentFileChanges (100 + BATCH_DETECTION_WINDOW) = false ∧
    isLikelyBatchOperation c1s3.recentFileChanges (200 + BATCH_DETECTION_WINDOW) = false ∧
    jsPostWait c1s3 c1fs "a.js" (0 + BATCH_DETECTION_WINDOW) = JSPost.opened ∧
    jsPostWait c1s3 c1fs "b.js" (100 + BATCH_DETECTION_WINDOW) = JSPost.opened ∧
    jsPostWait c1s3 c1fs "c.js" (200 + BATCH_DETECTION_WINDOW) = JSPost.opened := by
  decide

/-! ## Claim C2 -/

/-- C2 counterexample: the claim says every handler checks the Path
Classifier first, then suppression; but with the suppression flag set and a
path the classifier denies (`x.log`), the TypeScript change handler returns
the suppression verdict, not the classifier verdict — suppression is
checked first.  Moreover the post-wait phase (`openFile`) attempts an open
even when the suppression flag is set at wake-up time, so suppression is
not re-evaluated after the wait, and no batch detector is queried in this
variant. -/
theorem C2_counterexample :
    tsChangeDecision true [] "x.log" 0 = TSDecision.suppressed ∧
    shouldAutoOpen "x.log" = false ∧
    TSDecision.suppressed ≠ TSDecision.criteriaSkipped ∧
    (openFile "a.php"
      { pmRunning := true, visibleFiles := [], inMemoryDocs := [], openedFiles := [],
        autoOpenedFiles := [], lastCheckedFiles := [], documentModificationTimes := [] }
      { files := ["a.php"], oversize := [] }).1 = [HostAct.executeOpenCommand "a.php"] := by
  decide

/-- C2 (amended): for every external change event the TypeScript handler
performs its checks in this exact sequence — Package/Build suppression,
then the storage-directory check, then the Path Classifier, then the
Debounce Ledger — the verdict being that of the first failing check; and
after the settle delay the open-file action proceeds without re-evaluating
suppression (its attempted actions are independent of the suppression
flag) and without querying any batch detector. -/
theorem C2_check_order :
    (∀ (pm : Bool) (m : List (String × Nat)) (p : String) (now : Nat),
      tsChangeDecision pm m p now = firstHit (checkChainTS pm m p now)) ∧
    (∀ (p : String) (s : EditorState) (fs : FSState),
      (openFile p s fs).1 = (openFile p { s with pmRunning := true } fs).1) := by
  constructor
  · intro pm m p now
    simp only [tsChangeDecision, checkChainTS, firstHit]
    by_cases h1 : pm = true <;>
      by_cases h2 : (containsSub p "storage/" || containsSub p "storage\\") = true <;>
      by_cases h3 : shouldAutoOpen p = true <;>
      by_cases h4 : now - (lookupA m p).getD 0 < 2000 <;>
      simp [h1, h2, h3, h4]
  · intro p s fs
    simp only [openFile]
    split_ifs <;> rfl

/-! ## Claim C3 -/

/-- C3: while `isPackageManagerRunning` is true, each of the four handlers —
file creation, external file change, internal document-text change, and
document save — returns before the Path Classifier or any later check runs:
no host action is attempted and the state is left untouched. -/
theorem C3_suppression_short_circuit :
    ∀ (fs : FSState) (s : EditorState) (p : String) (now : Nat),
      s.pmRunning = true →
      stepTS fs s (Ev.fsCreate p) = ([], s) ∧
      stepTS fs s (Ev.fsChange p now) = ([], s) ∧
      stepTS fs s (Ev.docChange p now) = ([], s) ∧
      stepTS fs s (Ev.docSave p now) = ([], s) := by
  intro fs s p now h
  refine ⟨?_, ?_, ?_, ?_⟩ <;> simp [stepTS, tsChangeDecision, h]

/-- State for the C3 witness: suppression active, one visible document. -/
def c3s : EditorState :=
  { pmRunning := true, visibleFiles := ["seen.php"], inMemoryDocs := ["seen.php"],
    openedFiles := [], autoOpenedFiles := [], lastCheckedFiles := [],
    documentModificationTimes := [] }

/-- File system for the C3 witness. -/
def c3fs : FSState := { files := ["app.php"], oversize := [] }

/-- C3 witness: the four handlers at a concrete suppressed state and a path
the classifier would otherwise allow. -/
theorem C3_suppression_short_circuit_witness :
    stepTS c3fs c3s (Ev.fsCreate "app.php") = ([], c3s) ∧
    stepTS c3fs c3s (Ev.fsChange "app.php" 5000) = ([], c3s) ∧
    stepTS c3fs c3s (Ev.docChange "app.php" 5000) = ([], c3s) ∧
    stepTS c3fs c3s (Ev.docSave "app.php" 5000) = ([], c3s) :=
  C3_suppression_short_circuit c3fs c3s "app.php" 5000 rfl

/-! ## Claim C4 -/

/-- C4: an early-indicator event arriving while the cooldown is already
active pushes the pending expiry to the event time plus the full 30 s
cooldown (the previous timer is cancelled by replacement) and does not
reset `activityStartTime`; an activity event never deactivates the flag;
the flag goes inactive only when the currently pending timer fires; and a
timer scheduled before an intervening activity event no longer fires. -/
theorem C4_suppression_extension :
    (∀ (s : PMState) (now : Nat), s.isPackageManagerRunning = true →
      (handlePackageManagerActivity s now).timerExpiry = some (now + 30000) ∧
      (handlePackageManagerActivity s now).activityStartTime = s.activityStartTime ∧
      (handlePackageManagerActivity s now).isPackageManagerRunning = true) ∧
    (∀ (s : PMState) (t : Nat),
      (pmStep s (PMEvent.activity t)).isPackageManagerRunning = true) ∧
    (∀ (s : PMState) (t : Nat), s.isPackageManagerRunning = true →
      (pmStep s (PMEvent.fire t)).isPackageManagerRunning = false →
      s.timerExpiry = some t) ∧
    (∀ (s : PMState) (u t : Nat), ¬(t = u + 30000) →
      (pmStep (pmStep s (PMEvent.activity u)) (PMEvent.fire t)).isPackageManagerRunning = true) := by
  refine ⟨?_, ?_, ?_, ?_⟩
  · intro s now h
    simp [handlePackageManagerActivity, h]
  · intro s t
    simp [pmStep, handlePackageManagerActivity]
  · intro s t h1 h2
    by_cases hexp : s.timerExpiry = some t
    · exact hexp
    · simp [pmStep, hexp, h1] at h2
  · intro s u t hne
    have hne2 : ¬(u + 30000 = t) := fun hc => hne hc.symm
    simp [pmStep, handlePackageManagerActivity, hne2]

/-- C4 witness: a concrete active state with a pending timer at 10000 ms,
an activity event at 7000 ms, and a stale fire at the old expiry. -/
theorem C4_suppression_extension_witness :
    ((handlePackageManagerActivity ⟨true, 5, some 10000⟩ 7000).timerExpiry = some 37000 ∧
     (handlePackageManagerActivity ⟨true, 5, some 10000⟩ 7000).activityStartTime = 5 ∧
     (handlePackageManagerActivity ⟨true, 5, some 10000⟩ 7000).isPackageManagerRunning = true) ∧
    (pmStep ⟨false, 0, none⟩ (PMEvent.activity 3)).isPackageManagerRunning = true ∧
    (PMState.mk true 5 (some 10000)).timerExpiry = some 10000 ∧
    (pmStep (pmStep ⟨true, 5, some 10000⟩ (PMEvent.activity 7000))
      (PMEvent.fire 10000)).isPackageManagerRunning = true :=
  ⟨C4_suppression_extension.1 ⟨true, 5, some 10000⟩ 7000 rfl,
   C4_suppression_extension.2.1 ⟨false, 0, none⟩ 3,
   C4_suppression_extension.2.2.1 ⟨true, 5, some 10000⟩ 10000 rfl (by decide),
   C4_suppression_extension.2.2.2 ⟨true, 5, some 10000⟩ 7000 10000 (by decide)⟩

/-! ## Claim C5 -/

/-- C5 counterexample: `mystorage/framework/views/a.php` has no segment
equal to an ignored directory, a base name matching no disallowed pattern,
and an allow-listed extension, so the classifier of the claim allows it;
but `shouldAutoOpen` denies it, because the path contains the substring
`storage/framework/views` (the Laravel compiled-view check is a substring
test, not a segment test). -/
theorem C5_counterexample :
    shouldAutoOpen "mystorage/framework/views/a.php" = false ∧
    claimClassifierC5 "mystorage/framework/views/a.php" = true := by
  decide

/-- C5 (amended): for every path, the classifier returns deny iff the path
contains `storage/framework/views` (or its backslash form) as a substring,
or starts with `storage/` (or `storage\`), or some path segment
case-insensitively equals a configured excluded-directory name, or the base
name matches a disallowed-name pattern, or the extension is not in the
allow-list — and returns allow otherwise.  (The final lock-file name check
of the source is absorbed by the disallowed-name patterns.) -/
theorem C5_classifier_contract :
    ∀ p : String, shouldAutoOpen p = false ↔
      (containsSub p "storage/framework/views" ||
       containsSub p "storage\\framework\\views" ||
       startsWithS p "storage/" ||
       startsWithS p "storage\\" ||
       (pathSegments p).any (fun part => memB EXCLUDED_DIRS (lowerStr part)) ||
       disallowedPatternHit (basename p) ||
       !(memB ALLOWED_EXTENSIONS (lowerStr (extname p)))) = true := by
  intro p
  unfold shouldAutoOpen
  split_ifs with h1 h2 h3 h4 h5 h6 h7 h8 h9 <;>
    simp_all [disallowedPatternHit]

/-! ## Claim C6 -/

/-- C6 counterexample: for a path never seen before, the claim says the
first call at any time `t` yields `true`; but the TypeScript debounce reads
a missing entry as `lastSeenAt = 0` (`lastCheckedFiles.get(filePath) || 0`),
so a first call at `t = 1000 < TTL` is rejected. -/
theorem C6_counterexample :
    (tsDebounceCheck [] "fresh.ts" 1000).1 = false := by
  decide

/-- C6 (amended): for every path `p` with no ledger entry and every time
`t ≥ TTL` (so that the missing-entry sentinel `0` does not debounce the
first call), calling the Debounce Ledger at `t` and again at `tq` with
`tq - t < TTL` yields `true` then `false`; the rejecting call leaves the
ledger unchanged (the stored `lastSeenAt` stays `t`); and a further call at
`tr` with `tr - t ≥ TTL` yields `true` again. -/
theorem C6_debounce_idempotence :
    ∀ (m : List (String × Nat)) (p : String) (t tq tr : Nat),
      lookupA m p = none → 2000 ≤ t → t ≤ tq → tq - t < 2000 → 2000 ≤ tr - t →
      (tsDebounceCheck m p t).1 = true ∧
      lookupA (tsDebounceCheck m p t).2 p = some t ∧
      (tsDebounceCheck (tsDebounceCheck m p t).2 p tq).1 = false ∧
      (tsDebounceCheck (tsDebounceCheck m p t).2 p tq).2 = (tsDebounceCheck m p t).2 ∧
      (tsDebounceCheck (tsDebounceCheck m p t).2 p tr).1 = true := by
  intro m p t tq tr hnone ht htq hlt hge
  have hc1 : ¬(t - (lookupA m p).getD 0 < 2000) := by
    rw [hnone]
    simpa using ht
  have h1 : tsDebounceCheck m p t = (true, setA m p t) := by
    unfold tsDebounceCheck
    rw [if_neg hc1]
  have hlook : lookupA (setA m p t) p = some t := lookupA_setA_self m p t
  have hc2 : (tq - (lookupA (setA m p t) p).getD 0 < 2000) := by
    rw [hlook]
    simpa using hlt
  have hc3 : ¬(tr - (lookupA (setA m p t) p).getD 0 < 2000) := by
    rw [hlook]
    simpa using hge
  refine ⟨by rw [h1], by rw [h1]; exact hlook, ?_, ?_, ?_⟩
  · rw [h1]
    unfold tsDebounceCheck
    rw [if_pos hc2]
  · rw [h1]
    unfold tsDebounceCheck
    rw [if_pos hc2]
  · rw [h1]
    unfold tsDebounceCheck
    rw [if_neg hc3]

/-- C6 witness: empty ledger, first call at t = 2000, rejected repeat at
t = 2500, accepted retry at t = 4500. -/
theorem C6_debounce_idempotence_witness :
    (tsDebounceCheck [] "w.php" 2000).1 = true ∧
    lookupA (tsDebounceCheck [] "w.php" 2000).2 "w.php" = some 2000 ∧
    (tsDebounceCheck (tsDebounceCheck [] "w.php" 2000).2 "w.php" 2500).1 = false ∧
    (tsDebounceCheck (tsDebounceCheck [] "w.php" 2000).2 "w.php" 2500).2 =
      (tsDebounceCheck [] "w.php" 2000).2 ∧
    (tsDebounceCheck (tsDebounceCheck [] "w.php" 2000).2 "w.php" 4500).1 = true :=
  C6_debounce_idempotence [] "w.php" 2000 2500 4500 rfl (by decide) (by decide)
    (by decide) (by decide)

/-! ## Claim C7 -/

/-- C7: whenever a call is accepted by the debounce cache (the handler gets
past the debounce rejection) and the size of `recentChecks` right after the
insertion exceeds the threshold 100, the purge runs with cutoff
`now - CHECK_CACHE_TTL * 10`, so every entry remaining in `recentChecks`
afterwards is at most `10 × TTL` old.  The purge is triggered by the size
condition inside the handler itself, not by a timer. -/
theorem C7_debounce_purge :
    ∀ (st : JSState) (p : String) (now : Nat),
      ((jsPreWait st p now).1 = JSPre.skipUserOpen ∨
       (jsPreWait st p now).1 = JSPre.proceedToWait) →
      100 < (setA st.recentChecks p now).length →
      ∀ e ∈ (jsPreWait st p now).2.recentChecks, now - e.2 ≤ CHECK_CACHE_TTL * 10 := by
  intro st p now hacc hsize e he
  by_cases h1 : (!(st.autoOpen && shouldOpenFile p)) = true
  · simp only [jsPreWait, if_pos h1] at hacc
    rcases hacc with hacc | hacc <;> exact absurd hacc (by simp)
  · by_cases h2 : (jsTruthy (lookupA st.recentChecks p) &&
        decide (now - (lookupA st.recentChecks p).getD 0 < CHECK_CACHE_TTL)) = true
    · simp only [jsPreWait, if_neg h1, if_pos h2] at hacc
      rcases hacc with hacc | hacc <;> exact absurd hacc (by simp)
    · simp only [jsPreWait, if_neg h1, if_neg h2, if_pos hsize] at he
      split_ifs at he <;>
      · simp only [List.mem_filter] at he
        have h3 := he.2
        simp only [Bool.not_eq_true', decide_eq_false_iff_not, Nat.not_lt] at h3
        omega

/-- 101 distinct single-character keys, all with timestamp 0, to exceed the
purge threshold. -/
def c7bulk : List (String × Nat) :=
  (List.range 101).map (fun i => (String.mk [Char.ofNat (65 + i)], 0))

/-- State for the C7 witness: a debounce cache holding 101 stale entries. -/
def c7state : JSState :=
  { autoOpen := true, recentChecks := c7bulk, recentFileChanges := [], visibleFiles := [] }

/-- C7 witness: an accepted call at t = 20000 pushes the size to 102 > 100;
the inserted entry itself survives the purge and is 0 ms old. -/
theorem C7_debounce_purge_witness :
    (jsPreWait c7state "a.js" 20000).1 = JSPre.proceedToWait ∧
    20000 - (("a.js", (20000 : Nat)) : String × Nat).2 ≤ CHECK_CACHE_TTL * 10 :=
  ⟨by decide,
   C7_debounce_purge c7state "a.js" 20000 (Or.inr (by decide)) (by decide)
     ("a.js", 20000) (by decide)⟩

/-! ## Claim C8 -/

/-- C8: visibility precedence.  TypeScript variant: if the path of any of
the four file/document events is shown in a visible editor at decision time
(and hence, by the host invariant, its document is loaded in memory), the
handler attempts no host open action, whichever other checks would pass.
JavaScript variant: if the path is visible when `handleFileChange` reaches
the visibility check, the pre-wait phase never returns `proceedToWait`, so
the post-wait open code is never reached for that event. -/
theorem C8_visibility_precedence :
    (∀ (fs : FSState) (s : EditorState) (ev : Ev) (p : String),
      evPath ev = some p → memB s.visibleFiles p = true → memB s.inMemoryDocs p = true →
      (stepTS fs s ev).1 = []) ∧
    (∀ (st : JSState) (p : String) (now : Nat),
      memB st.visibleFiles p = true → (jsPreWait st p now).1 ≠ JSPre.proceedToWait) := by
  constructor
  · intro fs s ev p hev hvis hmem
    cases ev with
    | fsCreate q =>
      simp only [evPath, Option.some.injEq] at hev
      subst hev
      simp only [stepTS]
      split_ifs <;> first
        | rfl
        | exact openFile_actions_of_visible q s fs hvis hmem
    | fsChange q now =>
      simp only [evPath, Option.some.injEq] at hev
      subst hev
      simp only [stepTS]
      cases hd : tsChangeDecision s.pmRunning s.lastCheckedFiles q now <;>
        simp only [hd] <;>
        exact openFile_actions_of_visible q _ fs hvis hmem
    | docChange q now =>
      simp only [evPath, Option.some.injEq] at hev
      subst hev
      simp only [stepTS]
      split_ifs <;> simp_all
    | docSave q now =>
      simp only [evPath, Option.some.injEq] at hev
      subst hev
      simp only [stepTS]
      split_ifs <;> simp_all
    | activeEditor q => simp [evPath] at hev
    | docClose q => simp [evPath] at hev
    | pmSet b => simp [evPath] at hev
    | hostSync vis docs => simp [evPath] at hev
  · intro st p now hvis hproc
    simp only [jsPreWait] at hproc
    split_ifs at hproc

/-- TypeScript-side state for the C8 witness: the changed file is visible
and loaded. -/
def c8s : EditorState :=
  { pmRunning := false, visibleFiles := ["seen.php"], inMemoryDocs := ["seen.php"],
    openedFiles := [], autoOpenedFiles := [], lastCheckedFiles := [],
    documentModificationTimes := [] }

/-- File system for the C8 witness. -/
def c8fs : FSState := { files := ["seen.php"], oversize := [] }

/-- JavaScript-side state for the C8 witness. -/
def c8js : JSState :=
  { autoOpen := true, recentChecks := [], recentFileChanges := [],
    visibleFiles := ["seen.js"] }

/-- C8 witness: a visible file passes the classifier and the debounce on
both variants, yet no open action is attempted. -/
theorem C8_visibility_precedence_witness :
    (stepTS c8fs c8s (Ev.fsChange "seen.php" 5000)).1 = [] ∧
    (jsPreWait c8js "seen.js" 0).1 ≠ JSPre.proceedToWait :=
  ⟨C8_visibility_precedence.1 c8fs c8s (Ev.fsChange "seen.php" 5000) "seen.php" rfl
     (by decide) (by decide),
   C8_visibility_precedence.2 c8js "seen.js" 0 (by decide)⟩

/-! ## Claim C9 -/

/-- C9: the burst window `recentFileChanges` is a path-keyed map, so a
later change to the same path overwrites the earlier entry without growing
the map; consequently any sequence of changes all to one single path,
starting from an empty window, never reaches the 3-entry batch threshold
at any query time. -/
theorem C9_per_path_dedup :
    (∀ (m : List (String × Nat)) (p : String) (t u : Nat),
      lookupA (setA (setA m p t) p u) p = some u ∧
      (setA (setA m p t) p u).length = (setA m p t).length) ∧
    (∀ (p : String) (ts : List Nat) (now : Nat),
      isLikelyBatchOperation (ts.foldl (fun acc t => setA acc p t) []) now = false) := by
  constructor
  · intro m p t u
    refine ⟨lookupA_setA_self _ _ _, ?_⟩
    exact setA_length_of_isSome _ _ _ (by rw [lookupA_setA_self]; rfl)
  · intro p ts now
    cases ts with
    | nil => simp [isLikelyBatchOperation]
    | cons t rest =>
      have hsome : (lookupA [(p, t)] p).isSome = true := by simp [lookupA]
      have hlen : (rest.foldl (fun acc x => setA acc p x) [(p, t)]).length = 1 := by
        simpa using foldl_setA_length rest [(p, t)] p hsome
      have hfil := List.length_filter_le
        (fun timestamp => decide (now - timestamp < BATCH_DETECTION_WINDOW))
        ((rest.foldl (fun acc x => setA acc p x) [(p, t)]).map Prod.snd)
      rw [List.length_map] at hfil
      simp only [isLikelyBatchOperation, List.foldl_cons, decide_eq_false_iff_not, Nat.not_le]
      have hstart : setA ([] : List (String × Nat)) p t = [(p, t)] := rfl
      simp only [hstart]
      omega

/-! ## Claim C10 -/

/-- C10: when `openFile` finds the target already visible (it exists, is
under the size limit and is loaded in memory), it attempts no host action
but still records the path in `openedFiles` and `autoOpenedFiles`; no
handler ever removes a path from `autoOpenedFiles`; once a path is in
`autoOpenedFiles`, the internal document-change and save handlers for it
attempt no host action; membership persists over any sequence of session
events; and only `deactivate` clears the two sets. -/
theorem C10_auto_opened_permanent :
    (∀ (s : EditorState) (fs : FSState) (p : String),
      memB fs.files p = true → memB fs.oversize p = false →
      memB s.inMemoryDocs p = true → memB s.visibleFiles p = true →
      (openFile p s fs).1 = [] ∧
      memB (openFile p s fs).2.openedFiles p = true ∧
      memB (openFile p s fs).2.autoOpenedFiles p = true) ∧
    (∀ (fs : FSState) (s : EditorState) (ev : Ev) (p : String),
      memB s.autoOpenedFiles p = true →
      memB (stepTS fs s ev).2.autoOpenedFiles p = true) ∧
    (∀ (fs : FSState) (s : EditorState) (p : String) (t : Nat),
      memB s.autoOpenedFiles p = true →
      (stepTS fs s (Ev.docChange p t)).1 = [] ∧
      (stepTS fs s (Ev.docSave p t)).1 = []) ∧
    (∀ (fs : FSState) (s : EditorState) (evs : List Ev) (p : String),
      memB s.autoOpenedFiles p = true →
      memB (runTS fs s evs).autoOpenedFiles p = true) ∧
    (∀ s : EditorState, (deactivateTS s).openedFiles = [] ∧
      (deactivateTS s).autoOpenedFiles = []) := by
  refine ⟨?_, ?_, ?_, ?_, ?_⟩
  · intro s fs p hf hov hmem hvis
    refine ⟨?_, ?_, ?_⟩ <;>
      simp [openFile, addOpened, hf, hov, hmem, hvis, memB_insertS_self]
  · intro fs s ev p h
    exact stepTS_autoOpened_mono fs s ev p h
  · intro fs s p t h
    constructor <;> (simp only [stepTS]; split_ifs <;> simp_all)
  · intro fs s evs p h
    exact runTS_autoOpened_mono fs evs s p h
  · intro s
    exact ⟨rfl, rfl⟩

/-- State for the C10 witness: a visible, loaded file already recorded as
auto-opened. -/
def c10s : EditorState :=
  { pmRunning := false, visibleFiles := ["vis.php"], inMemoryDocs := ["vis.php"],
    openedFiles := [], autoOpenedFiles := ["vis.php"], lastCheckedFiles := [],
    documentModificationTimes := [] }

/-- File system for the C10 witness. -/
def c10fs : FSState := { files := ["vis.php"], oversize := [] }

/-- C10 witness: `openFile` on the visible file attempts nothing yet records
it; the internal-change and save handlers then do nothing for it, and it
stays in `autoOpenedFiles` across further events (including one that makes
it invisible). -/
theorem C10_auto_opened_permanent_witness :
    (openFile "vis.php" c10s c10fs).1 = [] ∧
    memB (openFile "vis.php" c10s c10fs).2.autoOpenedFiles "vis.php" = true ∧
    (stepTS c10fs c10s (Ev.docChange "vis.php" 9000)).1 = [] ∧
    (stepTS c10fs c10s (Ev.docSave "vis.php" 9000)).1 = [] ∧
    memB (runTS c10fs c10s
      [Ev.docChange "vis.php" 9000, Ev.hostSync [] ["vis.php"],
       Ev.docSave "vis.php" 9500]).autoOpenedFiles "vis.php" = true :=
  ⟨(C10_auto_opened_permanent.1 c10s c10fs "vis.php" (by decide) (by decide)
      (by decide) (by decide)).1,
   (C10_auto_opened_permanent.1 c10s c10fs "vis.php" (by decide) (by decide)
      (by decide) (by decide)).2.2,
   (C10_auto_opened_permanent.2.2.1 c10fs c10s "vis.php" 9000 (by decide)).1,
   (C10_auto_opened_permanent.2.2.1 c10fs c10s "vis.php" 9000 (by decide)).2,
   C10_auto_opened_permanent.2.2.2.1 c10fs c10s
     [Ev.docChange "vis.php" 9000, Ev.hostSync [] ["vis.php"],
      Ev.docSave "vis.php" 9500] "vis.php" (by decide)⟩

